import Mathlib

/-!
Shallow embedding of `trainer/task.py` (the training driver of
long-live-the-battery): the `CustomCheckpoints` callback, its storage
dispatch for evaluation reports, the step counter, and the tail of
`train_and_evaluate`.

Numeric conventions: Python ints become `Nat` (epochs, periods, counts);
the floating-point validation loss becomes `ℚ`; `np.Inf` (the initial
value of `lowest_loss`) becomes `none` in an `Option ℚ` whose `some`
values are finite losses.  Python's decimal rendering of a number inside
`"epoch_{}_loss_{}".format(...)` is modelled by an explicit decimal
rendering of the `Nat` and a `num/den` rendering of the `ℚ`; both are
injective, like Python's `repr`.  Filesystem and object-storage side
effects become an explicit trace of `FsOp` values.
-/

namespace Trainer

/-- Decimal digits of `n`, most significant first, computed with
structural fuel so that the kernel can evaluate it (`fuel > n` gives the
true digits). Mirrors Python's `str(int)`. -/
def natCharsAux : Nat → Nat → List Char
  | 0, _ => []
  | fuel + 1, n =>
    if n < 10 then [Nat.digitChar n]
    else natCharsAux fuel (n / 10) ++ [Nat.digitChar (n % 10)]

/-- Decimal rendering of a natural number, as Python's `str` writes it. -/
def natChars (n : Nat) : List Char := natCharsAux (n + 1) n

/-- Rendering of an integer: digits, with a leading minus sign when
negative.  Mirrors Python's `str(int)`. -/
def intChars : Int → List Char
  | Int.ofNat n => natChars n
  | Int.negSucc n => '-' :: natChars (n + 1)

/-- Rendering of a rational as `num/den`.  Python renders the (float)
validation loss with `repr`, which is also injective on the values it
prints; the embedding keeps only that injectivity. -/
def ratChars (q : ℚ) : List Char := intChars q.num ++ '/' :: natChars q.den

/-- `os.path.join(log_dir, "checkpoints", "epoch_{}_loss_{}".format(epoch, current_loss))`
from `CustomCheckpoints.on_epoch_end` (task.py line 70). -/
def checkpoint_dir (log_dir : String) (epoch : Nat) (loss : ℚ) : String :=
  log_dir ++ "/checkpoints/" ++
    ("epoch_" ++ String.mk (natChars epoch) ++ "_loss_" ++ String.mk (ratChars loss))

/-- `needle` is a prefix of `hay` (Boolean, over character lists). -/
def isPrefixB : List Char → List Char → Bool
  | [], _ => true
  | _ :: _, [] => false
  | a :: as, b :: bs => a == b && isPrefixB as bs

/-- `needle` occurs as a contiguous substring of `hay` (Boolean). -/
def containsSubB (needle : List Char) : List Char → Bool
  | [] => isPrefixB needle []
  | b :: bs => isPrefixB needle (b :: bs) || containsSubB needle bs

/-- Python's `needle in hay` test on strings (substring containment),
used by `_save_evaluation_plot` as `cst.BUCKET_NAME in html_dir`. -/
def strContains (needle hay : String) : Bool :=
  containsSubB needle.data hay.data

/-- One externally visible write performed by the driver.  `makedirs`
is the directory-creation effect of `os.makedirs`; it is part of the
vocabulary so that its absence from a trace is expressible (task.py
never emits it). -/
inductive FsOp where
  /-- `tf.keras.experimental.export_saved_model(model, dir)` -/
  | exportModel (dir : String)
  /-- `bucket.blob(path).upload_from_string(content, content_type)` -/
  | blobUpload (path content contentType : String)
  /-- `open(path, 'w')` followed by `f.write(content)` -/
  | fileWrite (path content : String)
  /-- `os.makedirs(dir)` -/
  | makedirs (dir : String)
deriving DecidableEq

/-- `CustomCheckpoints._save_evaluation_plot` (task.py lines 84-100):
join the report file name onto the checkpoint directory, wrap the
rendered plot fragment in a minimal HTML document, then write it to the
bucket when the destination contains the bucket name and to a local
file otherwise.  `plot_div` stands for the output of the external
`ev.plot_predictions_and_errors`. -/
def save_evaluation_plot (bucket_name ckpt_dir plot_div : String) : List FsOp :=
  let html_dir := ckpt_dir ++ "/validation_plot.html"
  let plot_html := "<html><body>" ++ plot_div ++ "</body></html>"
  if strContains bucket_name html_dir then
    [FsOp.blobUpload html_dir plot_html "text/html"]
  else
    [FsOp.fileWrite html_dir plot_html]

/-- The constructor parameters of `CustomCheckpoints` that drive its
behaviour, plus `cst.BUCKET_NAME` (a module constant in the source). -/
structure Config where
  log_dir : String
  start_epoch : Nat
  save_best_only : Bool
  period : Nat
  bucket_name : String
deriving DecidableEq

/-- The persistent per-run state of `CustomCheckpoints`: `lowest_loss`
(`none` models `np.Inf`) and `last_saved_epoch` (`none` models Python's
`None`). -/
structure CkptState where
  last_saved_epoch : Option Nat
  lowest_loss : Option ℚ
deriving DecidableEq

/-- `current_loss < self.lowest_loss` where `none` models `np.Inf`
(every finite loss is below infinity). -/
def ltInf (c : ℚ) : Option ℚ → Bool
  | none => true
  | some b => decide (c < b)

/-- `x ≤ y` on losses-with-infinity (`none` models `np.Inf`). -/
def leInf : Option ℚ → Option ℚ → Bool
  | _, none => true
  | none, some _ => false
  | some a, some b => decide (a ≤ b)

/-- `CustomCheckpoints.on_train_begin` (task.py lines 63-65): reset
`last_saved_epoch` to `None` and `lowest_loss` to `np.Inf`. -/
def on_train_begin : CkptState := ⟨none, none⟩

/-- `CustomCheckpoints.on_epoch_end` (task.py lines 67-79), as a pure
transition returning the new state and the trace of writes.  `val_loss`
is `logs.get('val_loss')` and `plot_div` the plot fragment the external
renderer produces for this epoch. -/
def on_epoch_end (cfg : Config) (s : CkptState) (epoch : Nat) (val_loss : ℚ)
    (plot_div : String) : CkptState × List FsOp :=
  if epoch % cfg.period = 0 ∧ cfg.start_epoch ≤ epoch then
    let dir := checkpoint_dir cfg.log_dir epoch val_loss
    if cfg.save_best_only then
      if ltInf val_loss s.lowest_loss then
        (⟨some epoch, some val_loss⟩,
          FsOp.exportModel dir :: save_evaluation_plot cfg.bucket_name dir plot_div)
      else
        (s, [])
    else
      (s, FsOp.exportModel dir :: save_evaluation_plot cfg.bucket_name dir plot_div)
  else
    (s, [])

/-- Outcome of one `on_epoch_end` call when the two writes may raise:
either the call returns normally, or an exception propagates; in both
cases the fields record the state of the callback object at that moment
and the writes completed so far. -/
inductive EpochOutcome where
  | ok (s : CkptState) (ops : List FsOp)
  | raised (s : CkptState) (ops : List FsOp)
deriving DecidableEq

/-- `CustomCheckpoints.on_epoch_end` with the Python exception flow made
explicit: `export_ok` (resp. `plot_ok`) is false when
`export_saved_model` (resp. `_save_evaluation_plot`) raises.  In the
source the assignments to `lowest_loss` and `last_saved_epoch` come
after both calls, so a raise leaves them untouched. -/
def on_epoch_end_exc (cfg : Config) (s : CkptState) (epoch : Nat) (val_loss : ℚ)
    (plot_div : String) (export_ok plot_ok : Bool) : EpochOutcome :=
  if epoch % cfg.period = 0 ∧ cfg.start_epoch ≤ epoch then
    let dir := checkpoint_dir cfg.log_dir epoch val_loss
    if cfg.save_best_only then
      if ltInf val_loss s.lowest_loss then
        if export_ok = false then EpochOutcome.raised s []
        else if plot_ok = false then EpochOutcome.raised s [FsOp.exportModel dir]
        else EpochOutcome.ok ⟨some epoch, some val_loss⟩
          (FsOp.exportModel dir :: save_evaluation_plot cfg.bucket_name dir plot_div)
      else
        EpochOutcome.ok s []
    else
      if export_ok = false then EpochOutcome.raised s []
      else if plot_ok = false then EpochOutcome.raised s [FsOp.exportModel dir]
      else EpochOutcome.ok s
        (FsOp.exportModel dir :: save_evaluation_plot cfg.bucket_name dir plot_div)
  else
    EpochOutcome.ok s []

/-- `CustomCheckpoints.on_train_end` (task.py lines 81-82): the printed
report line; Python's `format` writes `None` for an unset marker. -/
def on_train_end (s : CkptState) : String :=
  "Last saved model is from epoch " ++
    (match s.last_saved_epoch with
     | none => "None"
     | some e => String.mk (natChars e))

/-- What the fit loop hands the callback at one epoch boundary: the
epoch index, the validation loss from `logs`, and the plot fragment the
external renderer would produce at that point. -/
structure EpochLog where
  epoch : Nat
  val_loss : ℚ
  plot_div : String
deriving DecidableEq

/-- Folding `on_epoch_end` over the epoch-boundary events of one run,
accumulating the trace of writes. -/
def runEpochs (cfg : Config) (s : CkptState) : List EpochLog → CkptState × List FsOp
  | [] => (s, [])
  | e :: rest =>
    let step := on_epoch_end cfg s e.epoch e.val_loss e.plot_div
    let tail := runEpochs cfg step.1 rest
    (tail.1, step.2 ++ tail.2)

/-- The write trace of `train_and_evaluate` (task.py lines 194-264)
after model and datasets are built: the fit loop drives the
`CustomCheckpoints` callback (constructed there with
`save_best_only=True`, `start_epoch=args.save_from` and the default
`period=1`), and afterwards the final-epoch model is exported to
`os.path.join(tboard_dir, "checkpoints", "last_epoch")`. -/
def train_and_evaluate (tboard_dir bucket_name : String) (save_from : Nat)
    (fit_logs : List EpochLog) : List FsOp :=
  let cfg : Config := ⟨tboard_dir, save_from, true, 1, bucket_name⟩
  let run := runEpochs cfg on_train_begin fit_logs
  run.2 ++ [FsOp.exportModel (tboard_dir ++ "/checkpoints/last_epoch")]

/-- Modelled from the spec: `trainer/data_pipeline.py` (the
`create_dataset` collaborator) is not under `src/`.  Per the spec, a
continuous series is sliced into fixed-length samples by a sliding
window of `window_size` points taken `stride` apart, with consecutive
windows `shift` apart; only complete windows are produced. -/
def slidingWindows (xs : List ℚ) (window_size shift stride : Nat) : List (List ℚ) :=
  let span := (window_size - 1) * stride + 1
  let count := if shift = 0 ∨ window_size = 0 ∨ xs.length < span then 0
               else (xs.length - span) / shift + 1
  (List.range count).map (fun k =>
    (List.range window_size).map (fun j => xs.getD (k * shift + j * stride) 0))

/-- Modelled from the spec: grouping of consecutive samples into batches
of `batch_size` (a zero batch size is clamped to one so the grouping
terminates; the source never passes zero). -/
def batchify (batch_size : Nat) (xs : List (List ℚ)) : List (List (List ℚ)) :=
  if h : xs = [] then []
  else
    xs.take (max batch_size 1) :: batchify batch_size (xs.drop (max batch_size 1))
termination_by xs.length
decreasing_by
  have h1 : 0 < xs.length := List.length_pos.mpr h
  have h2 : 1 ≤ max batch_size 1 := le_max_right _ _
  simp only [List.length_drop]
  omega

/-- Modelled from the spec: the non-repeating, non-shuffled batch
sequence the Dataset Provider yields for a fixed input and windowing
configuration (the mode `calculate_steps_per_epoch` requests with
`repeat=False`); each batch appears exactly once.  The repeating /
shuffling training mode is not modelled: the step counter never uses
it. -/
def create_dataset (xs : List ℚ) (window_size shift stride batch_size : Nat) :
    List (List (List ℚ)) :=
  batchify batch_size (slidingWindows xs window_size shift stride)

/-- `calculate_steps_per_epoch` (task.py lines 267-277): build the
non-repeating dataset and count its batches with a fold, one increment
per batch, exactly as the `for batch in temp_dataset` loop does. -/
def calculate_steps_per_epoch (xs : List ℚ)
    (window_size shift stride batch_size : Nat) : Nat :=
  (create_dataset xs window_size shift stride batch_size).foldl
    (fun steps _ => steps + 1) 0

/-- The state recorded in an `EpochOutcome` (the callback object's state
when the call returns or when the exception propagates). -/
def outState : EpochOutcome → CkptState
  | EpochOutcome.ok s _ => s
  | EpochOutcome.raised s _ => s

/-- The writes completed by the time an `EpochOutcome` is reached. -/
def outOps : EpochOutcome → List FsOp
  | EpochOutcome.ok _ ops => ops
  | EpochOutcome.raised _ ops => ops

/-- Whether an `EpochOutcome` is an exception propagating out. -/
def isRaised : EpochOutcome → Bool
  | EpochOutcome.ok _ _ => false
  | EpochOutcome.raised _ _ => true

/-- Whether a trace element is a directory-creation effect. -/
def isMakedirs : FsOp → Bool
  | FsOp.makedirs _ => true
  | _ => false

/-- Left inverse of the decimal rendering: fold the digits back into the
number. -/
def decodeNat (cs : List Char) : Nat :=
  cs.foldl (fun a c => 10 * a + (c.toNat - 48)) 0

/-- A sample configuration: the one the spec's end-to-end scenario uses
(`start_epoch=2, period=1, save_best_only=True`), with a log directory
that does not mention the bucket. -/
def cfgScenario : Config := ⟨"logs", 2, true, 1, "gs_bucket"⟩

/-- A sample configuration with `save_best_only=False` and no start/period
gate, used to evaluate the non-best mode. -/
def cfgNoBest : Config := ⟨"logs", 0, false, 1, "gs_bucket"⟩

end Trainer

namespace Trainer

theorem foldl_count {α : Type} (l : List α) (n : Nat) :
    l.foldl (fun steps _ => steps + 1) n = n + l.length := by
  induction l generalizing n with
  | nil => simp
  | cons a as ih => simp only [List.foldl, List.length_cons, ih]; omega

theorem on_epoch_end_writes_iff (cfg : Config) (s : CkptState) (epoch : Nat)
    (val_loss : ℚ) (plot_div : String) :
    (on_epoch_end cfg s epoch val_loss plot_div).2 ≠ [] ↔
      (epoch % cfg.period = 0 ∧ cfg.start_epoch ≤ epoch ∧
        (cfg.save_best_only = true → ltInf val_loss s.lowest_loss = true)) := by
  unfold on_epoch_end
  split_ifs with hg hb hl <;> simp_all

theorem on_epoch_end_writes_shape (cfg : Config) (s : CkptState) (epoch : Nat)
    (val_loss : ℚ) (plot_div : String)
    (h : (on_epoch_end cfg s epoch val_loss plot_div).2 ≠ []) :
    (on_epoch_end cfg s epoch val_loss plot_div).2 =
      FsOp.exportModel (checkpoint_dir cfg.log_dir epoch val_loss) ::
        save_evaluation_plot cfg.bucket_name (checkpoint_dir cfg.log_dir epoch val_loss)
          plot_div := by
  unfold on_epoch_end at h ⊢
  split_ifs at h ⊢ <;> simp_all

theorem on_epoch_end_state_eq_or (cfg : Config) (s : CkptState) (epoch : Nat)
    (val_loss : ℚ) (plot_div : String) :
    (on_epoch_end cfg s epoch val_loss plot_div).1 = s ∨
      (cfg.save_best_only = true ∧ ltInf val_loss s.lowest_loss = true ∧
        (on_epoch_end cfg s epoch val_loss plot_div).1 = ⟨some epoch, some val_loss⟩ ∧
        (on_epoch_end cfg s epoch val_loss plot_div).2 ≠ []) := by
  unfold on_epoch_end
  split_ifs with hg hb hl
  · right; simp_all
  · left; rfl
  · left; rfl
  · left; rfl

theorem leInf_refl (a : Option ℚ) : leInf a a = true := by
  cases a <;> simp [leInf]

theorem leInf_trans {a b c : Option ℚ} (h1 : leInf a b = true) (h2 : leInf b c = true) :
    leInf a c = true := by
  cases a <;> cases b <;> cases c <;> simp_all [leInf]
  exact le_trans h1 h2

theorem on_epoch_end_lowest_le (cfg : Config) (s : CkptState) (epoch : Nat)
    (val_loss : ℚ) (plot_div : String) :
    leInf (on_epoch_end cfg s epoch val_loss plot_div).1.lowest_loss s.lowest_loss = true := by
  rcases on_epoch_end_state_eq_or cfg s epoch val_loss plot_div with h | ⟨_, hlt, h, _⟩
  · rw [h]; exact leInf_refl _
  · rw [h]
    cases hb : s.lowest_loss with
    | none => simp [leInf]
    | some b =>
      rw [hb] at hlt
      simp only [ltInf, decide_eq_true_eq] at hlt
      simp only [leInf, decide_eq_true_eq]
      exact le_of_lt hlt

theorem runEpochs_lowest_le (cfg : Config) (logs : List EpochLog) :
    ∀ s : CkptState, leInf (runEpochs cfg s logs).1.lowest_loss s.lowest_loss = true := by
  induction logs with
  | nil => intro s; exact leInf_refl _
  | cons e rest ih =>
    intro s
    have h1 := on_epoch_end_lowest_le cfg s e.epoch e.val_loss e.plot_div
    have h2 := ih (on_epoch_end cfg s e.epoch e.val_loss e.plot_div).1
    simp only [runEpochs]
    exact leInf_trans h2 h1

end Trainer

namespace Trainer

/-- C1: for every epoch delivered to `on_epoch_end`, a checkpoint (model
export plus evaluation report) is written iff `epoch % period == 0` and
`epoch >= start_epoch` and, when `save_best_only` is set, additionally
the validation loss is strictly below the tracked best; with
`save_best_only` unset the period/start gate alone decides, and every
write consists of the model export followed by the evaluation report
for the computed checkpoint directory. -/
theorem checkpoint_gate_iff (cfg : Config) (s : CkptState) (epoch : Nat)
    (val_loss : ℚ) (plot_div : String) :
    ((on_epoch_end cfg s epoch val_loss plot_div).2 ≠ [] ↔
      (epoch % cfg.period = 0 ∧ cfg.start_epoch ≤ epoch ∧
        (cfg.save_best_only = true → ltInf val_loss s.lowest_loss = true))) ∧
    ((on_epoch_end cfg s epoch val_loss plot_div).2 ≠ [] →
      (on_epoch_end cfg s epoch val_loss plot_div).2 =
        FsOp.exportModel (checkpoint_dir cfg.log_dir epoch val_loss) ::
          save_evaluation_plot cfg.bucket_name (checkpoint_dir cfg.log_dir epoch val_loss)
            plot_div) :=
  ⟨on_epoch_end_writes_iff cfg s epoch val_loss plot_div,
   on_epoch_end_writes_shape cfg s epoch val_loss plot_div⟩

/-- Witness for C1: at `start_epoch=2, period=1, save_best_only=True`
with the tracker still at infinity, epoch 2 with loss 9/10 produces the
model export plus the report write. -/
theorem checkpoint_gate_iff_witness :
    (on_epoch_end cfgScenario on_train_begin 2 (mkRat 9 10) "div").2 =
      FsOp.exportModel (checkpoint_dir "logs" 2 (mkRat 9 10)) ::
        save_evaluation_plot "gs_bucket" (checkpoint_dir "logs" 2 (mkRat 9 10)) "div" := by
  have h := checkpoint_gate_iff cfgScenario on_train_begin 2 (mkRat 9 10) "div"
  exact h.2 (h.1.mpr (by decide))

/-- C3: in the run `start_epoch=2, period=1, save_best_only=True` with
validation losses `[1, 4/5, 9/10, 1/2]` at epochs `[0,1,2,3]`, epochs 0
and 1 produce no writes, epoch 2 (the first eligible epoch, accepted
against the infinite initial tracker despite its loss being above
earlier ones) and epoch 3 are checkpointed, and the final report names
epoch 3 as last saved. -/
theorem save_best_first_eligible_scenario :
    runEpochs cfgScenario on_train_begin
      [⟨0, mkRat 1 1, "div"⟩, ⟨1, mkRat 4 5, "div"⟩,
       ⟨2, mkRat 9 10, "div"⟩, ⟨3, mkRat 1 2, "div"⟩] =
    (⟨some 3, some (mkRat 1 2)⟩,
      FsOp.exportModel (checkpoint_dir "logs" 2 (mkRat 9 10)) ::
        save_evaluation_plot "gs_bucket" (checkpoint_dir "logs" 2 (mkRat 9 10)) "div" ++
      (FsOp.exportModel (checkpoint_dir "logs" 3 (mkRat 1 2)) ::
        save_evaluation_plot "gs_bucket" (checkpoint_dir "logs" 3 (mkRat 1 2)) "div")) ∧
    on_train_end (runEpochs cfgScenario on_train_begin
      [⟨0, mkRat 1 1, "div"⟩, ⟨1, mkRat 4 5, "div"⟩,
       ⟨2, mkRat 9 10, "div"⟩, ⟨3, mkRat 1 2, "div"⟩]).1 =
      "Last saved model is from epoch 3" := by
  decide

/-- C4 (bug evidence): with `save_best_only=False` the gate-passing
epoch 0 writes a checkpoint, yet `last_saved_epoch` is never assigned in
that branch, so `on_train_end` reports that no model was saved. -/
theorem last_saved_epoch_not_updated_without_best :
    (runEpochs cfgNoBest on_train_begin [⟨0, mkRat 1 1, "div"⟩]).2 ≠ [] ∧
    (runEpochs cfgNoBest on_train_begin [⟨0, mkRat 1 1, "div"⟩]).1.last_saved_epoch = none ∧
    on_train_end (runEpochs cfgNoBest on_train_begin [⟨0, mkRat 1 1, "div"⟩]).1 =
      "Last saved model is from epoch None" := by
  decide

/-- C5: the report writer picks its backend by the substring test alone:
a destination containing the bucket identifier goes to the
object-storage client as text with an HTML content type, any other
destination goes to a plain local-file write. -/
theorem plot_write_dispatch (bucket_name ckpt_dir plot_div : String) :
    (strContains bucket_name (ckpt_dir ++ "/validation_plot.html") = true →
      save_evaluation_plot bucket_name ckpt_dir plot_div =
        [FsOp.blobUpload (ckpt_dir ++ "/validation_plot.html")
          ("<html><body>" ++ plot_div ++ "</body></html>") "text/html"]) ∧
    (strContains bucket_name (ckpt_dir ++ "/validation_plot.html") = false →
      save_evaluation_plot bucket_name ckpt_dir plot_div =
        [FsOp.fileWrite (ckpt_dir ++ "/validation_plot.html")
          ("<html><body>" ++ plot_div ++ "</body></html>")]) := by
  unfold save_evaluation_plot
  constructor
  · intro h; rw [if_pos h]
  · intro h; rw [if_neg (by simp [h])]

/-- Witness for C5: a bucket-qualified destination is uploaded as HTML
text; a local destination becomes a file write. -/
theorem plot_write_dispatch_witness :
    save_evaluation_plot "bkt" "gs:/bkt/run" "d" =
      [FsOp.blobUpload ("gs:/bkt/run" ++ "/validation_plot.html")
        ("<html><body>" ++ "d" ++ "</body></html>") "text/html"] ∧
    save_evaluation_plot "bkt" "/tmp/run" "d" =
      [FsOp.fileWrite ("/tmp/run" ++ "/validation_plot.html")
        ("<html><body>" ++ "d" ++ "</body></html>")] :=
  ⟨(plot_write_dispatch "bkt" "gs:/bkt/run" "d").1 (by decide),
   (plot_write_dispatch "bkt" "/tmp/run" "d").2 (by decide)⟩

/-- C7: the step counter's fold consumes the whole non-repeating batch
sequence and returns exactly the number of batches it yields. -/
theorem steps_per_epoch_counts_batches (xs : List ℚ)
    (window_size shift stride batch_size : Nat) :
    calculate_steps_per_epoch xs window_size shift stride batch_size =
      (create_dataset xs window_size shift stride batch_size).length := by
  unfold calculate_steps_per_epoch
  rw [foldl_count, Nat.zero_add]

/-- C8 (counterexample): at a local destination the report writer's
trace is a single bare file write; it contains no directory-creation
effect, contradicting the claim that missing parent directories are
created as needed. -/
theorem local_report_write_no_makedirs :
    save_evaluation_plot "gs_bucket" "/tmp/run" "div" =
      [FsOp.fileWrite "/tmp/run/validation_plot.html" "<html><body>div</body></html>"] ∧
    (save_evaluation_plot "gs_bucket" "/tmp/run" "div").filter isMakedirs = [] := by
  decide

/-- C8 (amended): when the destination does not contain the bucket
identifier the writer performs exactly one plain local file write and
creates no directories (in the source the preceding model export is
what brings the checkpoint directory into existence). -/
theorem local_report_write_plain_file (bucket_name ckpt_dir plot_div : String)
    (h : strContains bucket_name (ckpt_dir ++ "/validation_plot.html") = false) :
    save_evaluation_plot bucket_name ckpt_dir plot_div =
      [FsOp.fileWrite (ckpt_dir ++ "/validation_plot.html")
        ("<html><body>" ++ plot_div ++ "</body></html>")] ∧
    (save_evaluation_plot bucket_name ckpt_dir plot_div).filter isMakedirs = [] := by
  have heq := (plot_write_dispatch bucket_name ckpt_dir plot_div).2 h
  rw [heq]
  exact ⟨rfl, rfl⟩

/-- Witness for C8 (amended): a concrete local destination. -/
theorem local_report_write_plain_file_witness :
    save_evaluation_plot "gs_bucket" "/data/run" "p" =
      [FsOp.fileWrite ("/data/run" ++ "/validation_plot.html")
        ("<html><body>" ++ "p" ++ "</body></html>")] ∧
    (save_evaluation_plot "gs_bucket" "/data/run" "p").filter isMakedirs = [] :=
  local_report_write_plain_file "gs_bucket" "/data/run" "p" (by decide)

/-- C9: whatever the fit loop and the checkpoint callback did, the trace
of `train_and_evaluate` ends with the unconditional export of the
final-epoch model to `<log_dir>/checkpoints/last_epoch`. -/
theorem final_model_export_unconditional (tboard_dir bucket_name : String)
    (save_from : Nat) (fit_logs : List EpochLog) :
    (train_and_evaluate tboard_dir bucket_name save_from fit_logs).getLast? =
      some (FsOp.exportModel (tboard_dir ++ "/checkpoints/last_epoch")) := by
  unfold train_and_evaluate
  exact List.getLast?_concat _

end Trainer

namespace Trainer

theorem on_epoch_end_best_accept (cfg : Config) (s : CkptState) (epoch : Nat)
    (val_loss : ℚ) (plot_div : String) (hb : cfg.save_best_only = true)
    (hops : (on_epoch_end cfg s epoch val_loss plot_div).2 ≠ []) :
    (on_epoch_end cfg s epoch val_loss plot_div).1 = ⟨some epoch, some val_loss⟩ ∧
      ltInf val_loss s.lowest_loss = true := by
  unfold on_epoch_end at hops ⊢
  split_ifs at hops ⊢ <;> simp_all

/-- C2: the Best-Loss Tracker starts at infinity and the last-saved
marker undefined; the tracker changes only when a save-best-only
checkpoint is accepted; on each such acceptance it drops strictly, to
that epoch's loss; and across any whole run it is non-increasing. -/
theorem best_loss_tracker_invariants :
    (on_train_begin.lowest_loss = none ∧ on_train_begin.last_saved_epoch = none) ∧
    (∀ (cfg : Config) (s : CkptState) (epoch : Nat) (val_loss : ℚ) (plot_div : String),
      (on_epoch_end cfg s epoch val_loss plot_div).1.lowest_loss ≠ s.lowest_loss →
        ((on_epoch_end cfg s epoch val_loss plot_div).2 ≠ [] ∧
         cfg.save_best_only = true ∧
         (on_epoch_end cfg s epoch val_loss plot_div).1.lowest_loss = some val_loss ∧
         ltInf val_loss s.lowest_loss = true)) ∧
    (∀ (cfg : Config) (s : CkptState) (epoch : Nat) (val_loss : ℚ) (plot_div : String),
      cfg.save_best_only = true →
      (on_epoch_end cfg s epoch val_loss plot_div).2 ≠ [] →
        ((on_epoch_end cfg s epoch val_loss plot_div).1.lowest_loss = some val_loss ∧
         ltInf val_loss s.lowest_loss = true)) ∧
    (∀ (cfg : Config) (logs : List EpochLog) (s : CkptState),
      leInf (runEpochs cfg s logs).1.lowest_loss s.lowest_loss = true) := by
  refine ⟨⟨rfl, rfl⟩, ?_, ?_, fun cfg logs s => runEpochs_lowest_le cfg logs s⟩
  · intro cfg s epoch val_loss plot_div hne
    rcases on_epoch_end_state_eq_or cfg s epoch val_loss plot_div with h | ⟨hb, hlt, h, hops⟩
    · exact absurd (by rw [h]) hne
    · exact ⟨hops, hb, by rw [h], hlt⟩
  · intro cfg s epoch val_loss plot_div hb hops
    obtain ⟨h, hlt⟩ := on_epoch_end_best_accept cfg s epoch val_loss plot_div hb hops
    exact ⟨by rw [h], hlt⟩

/-- Witness for C2: from the state reached after accepting epoch 2 at
loss 9/10, epoch 3 at loss 1/2 is accepted and the tracker drops to
1/2, strictly below 9/10. -/
theorem best_loss_tracker_invariants_witness :
    (on_epoch_end cfgScenario ⟨some 2, some (mkRat 9 10)⟩ 3 (mkRat 1 2) "div").1.lowest_loss =
      some (mkRat 1 2) ∧
    ltInf (mkRat 1 2) (CkptState.mk (some 2) (some (mkRat 9 10))).lowest_loss = true := by
  have h := best_loss_tracker_invariants
  exact h.2.2.1 cfgScenario ⟨some 2, some (mkRat 9 10)⟩ 3 (mkRat 1 2) "div" rfl (by decide)

theorem on_epoch_end_exc_raised_state (cfg : Config) (s : CkptState) (epoch : Nat)
    (val_loss : ℚ) (plot_div : String) (export_ok plot_ok : Bool)
    (h : isRaised (on_epoch_end_exc cfg s epoch val_loss plot_div export_ok plot_ok) = true) :
    outState (on_epoch_end_exc cfg s epoch val_loss plot_div export_ok plot_ok) = s := by
  unfold on_epoch_end_exc at h ⊢
  split_ifs at h ⊢ <;> simp_all [outState, isRaised]

theorem on_epoch_end_exc_changed (cfg : Config) (s : CkptState) (epoch : Nat)
    (val_loss : ℚ) (plot_div : String) (export_ok plot_ok : Bool)
    (h : outState (on_epoch_end_exc cfg s epoch val_loss plot_div export_ok plot_ok) ≠ s) :
    export_ok = true ∧ plot_ok = true ∧
      outState (on_epoch_end_exc cfg s epoch val_loss plot_div export_ok plot_ok) =
        ⟨some epoch, some val_loss⟩ ∧
      isRaised (on_epoch_end_exc cfg s epoch val_loss plot_div export_ok plot_ok) = false := by
  unfold on_epoch_end_exc at h ⊢
  split_ifs at h ⊢ <;> simp_all [outState, isRaised]

theorem on_epoch_end_exc_ok_run (cfg : Config) (s : CkptState) (epoch : Nat)
    (val_loss : ℚ) (plot_div : String) :
    on_epoch_end_exc cfg s epoch val_loss plot_div true true =
      EpochOutcome.ok (on_epoch_end cfg s epoch val_loss plot_div).1
        (on_epoch_end cfg s epoch val_loss plot_div).2 := by
  unfold on_epoch_end_exc on_epoch_end
  split_ifs <;> simp_all

/-- C10: under save-best-only the tracker and marker are assigned only
after both the model export and the report write succeed: when either
raises, the exception leaves the controller state exactly as before, so
the same loss value's eligibility is unchanged; the state differs from
the old one only on the fully successful path, and the all-success run
of the exception-aware transition coincides with the normal one. -/
theorem state_unchanged_on_write_failure (cfg : Config) (s : CkptState)
    (epoch : Nat) (val_loss : ℚ) (plot_div : String) (export_ok plot_ok : Bool)
    (hb : cfg.save_best_only = true) :
    (isRaised (on_epoch_end_exc cfg s epoch val_loss plot_div export_ok plot_ok) = true →
      outState (on_epoch_end_exc cfg s epoch val_loss plot_div export_ok plot_ok) = s) ∧
    (isRaised (on_epoch_end_exc cfg s epoch val_loss plot_div export_ok plot_ok) = true →
      ltInf val_loss
          (outState (on_epoch_end_exc cfg s epoch val_loss plot_div export_ok plot_ok)).lowest_loss =
        ltInf val_loss s.lowest_loss) ∧
    (outState (on_epoch_end_exc cfg s epoch val_loss plot_div export_ok plot_ok) ≠ s →
      export_ok = true ∧ plot_ok = true ∧
      outState (on_epoch_end_exc cfg s epoch val_loss plot_div export_ok plot_ok) =
        ⟨some epoch, some val_loss⟩ ∧
      isRaised (on_epoch_end_exc cfg s epoch val_loss plot_div export_ok plot_ok) = false) ∧
    (on_epoch_end_exc cfg s epoch val_loss plot_div true true =
      EpochOutcome.ok (on_epoch_end cfg s epoch val_loss plot_div).1
        (on_epoch_end cfg s epoch val_loss plot_div).2) := by
  refine ⟨?_, ?_, ?_, on_epoch_end_exc_ok_run cfg s epoch val_loss plot_div⟩
  · exact on_epoch_end_exc_raised_state cfg s epoch val_loss plot_div export_ok plot_ok
  · intro h
    rw [on_epoch_end_exc_raised_state cfg s epoch val_loss plot_div export_ok plot_ok h]
  · exact on_epoch_end_exc_changed cfg s epoch val_loss plot_div export_ok plot_ok

/-- Witness for C10: at epoch 3 with loss 9/10 below the tracked best 2,
the export succeeds but the report write raises; the state is left at
its previous value and the loss's comparison with the tracker is
unchanged. -/
theorem state_unchanged_on_write_failure_witness :
    outState (on_epoch_end_exc cfgScenario ⟨some 7, some (mkRat 2 1)⟩ 3 (mkRat 9 10)
        "div" true false) = ⟨some 7, some (mkRat 2 1)⟩ ∧
    ltInf (mkRat 9 10)
        (outState (on_epoch_end_exc cfgScenario ⟨some 7, some (mkRat 2 1)⟩ 3 (mkRat 9 10)
          "div" true false)).lowest_loss =
      ltInf (mkRat 9 10) (CkptState.mk (some 7) (some (mkRat 2 1))).lowest_loss := by
  have h := state_unchanged_on_write_failure cfgScenario ⟨some 7, some (mkRat 2 1)⟩ 3
    (mkRat 9 10) "div" true false rfl
  exact ⟨h.1 (by decide), h.2.1 (by decide)⟩

end Trainer

namespace Trainer

theorem digitChar_sub_val : ∀ d, d < 10 → (Nat.digitChar d).toNat - 48 = d := by decide

theorem digitChar_isDigit : ∀ d, d < 10 → (Nat.digitChar d).isDigit = true := by decide

theorem decodeNat_append_digit (xs : List Char) (c : Char) :
    decodeNat (xs ++ [c]) = 10 * decodeNat xs + (c.toNat - 48) := by
  unfold decodeNat
  rw [List.foldl_append]
  rfl

theorem natCharsAux_decode : ∀ (fuel n : Nat), n < fuel →
    decodeNat (natCharsAux fuel n) = n := by
  intro fuel
  induction fuel with
  | zero => intro n h; omega
  | succ f ih =>
    intro n h
    unfold natCharsAux
    split_ifs with h10
    · simp only [decodeNat, List.foldl, Nat.mul_zero, Nat.zero_add]
      exact digitChar_sub_val n h10
    · rw [decodeNat_append_digit]
      have hlt : n / 10 < n := Nat.div_lt_self (by omega) (by omega)
      rw [ih (n / 10) (by omega), digitChar_sub_val (n % 10) (Nat.mod_lt n (by omega))]
      omega

theorem natChars_decode (n : Nat) : decodeNat (natChars n) = n :=
  natCharsAux_decode (n + 1) n (Nat.lt_succ_self n)

theorem natChars_injective {m n : Nat} (h : natChars m = natChars n) : m = n := by
  have hm := natChars_decode m
  rw [h, natChars_decode] at hm
  omega

theorem natCharsAux_isDigit : ∀ (fuel n : Nat) (c : Char), c ∈ natCharsAux fuel n →
    c.isDigit = true := by
  intro fuel
  induction fuel with
  | zero => intro n c hc; simp [natCharsAux] at hc
  | succ f ih =>
    intro n c hc
    unfold natCharsAux at hc
    split_ifs at hc with h10
    · simp only [List.mem_singleton] at hc
      subst hc
      exact digitChar_isDigit n h10
    · rw [List.mem_append] at hc
      rcases hc with hc | hc
      · exact ih (n / 10) c hc
      · simp only [List.mem_singleton] at hc
        subst hc
        exact digitChar_isDigit (n % 10) (Nat.mod_lt n (by omega))

theorem natChars_isDigit {n : Nat} {c : Char} (h : c ∈ natChars n) : c.isDigit = true :=
  natCharsAux_isDigit (n + 1) n c h

theorem natChars_not_mem_underscore (n : Nat) : '_' ∉ natChars n :=
  fun h => absurd (natChars_isDigit h) (by decide)

end Trainer

namespace Trainer

theorem natChars_ne_nil (n : Nat) : natChars n ≠ [] := by
  unfold natChars natCharsAux
  split_ifs with h10 <;> simp

theorem intChars_mem {i : Int} {c : Char} (h : c ∈ intChars i) :
    c = '-' ∨ c.isDigit = true := by
  cases i with
  | ofNat n => exact Or.inr (natChars_isDigit h)
  | negSucc n =>
    simp only [intChars, List.mem_cons] at h
    rcases h with h | h
    · exact Or.inl h
    · exact Or.inr (natChars_isDigit h)

theorem intChars_injective {i j : Int} (h : intChars i = intChars j) : i = j := by
  cases i with
  | ofNat m =>
    cases j with
    | ofNat n =>
      simp only [intChars] at h
      rw [natChars_injective h]
    | negSucc n =>
      simp only [intChars] at h
      have hm : '-' ∈ natChars m := by rw [h]; exact List.mem_cons_self _ _
      exact absurd (natChars_isDigit hm) (by decide)
  | negSucc m =>
    cases j with
    | ofNat n =>
      simp only [intChars] at h
      have hm : '-' ∈ natChars n := by rw [← h]; exact List.mem_cons_self _ _
      exact absurd (natChars_isDigit hm) (by decide)
    | negSucc n =>
      simp only [intChars, List.cons.injEq, true_and] at h
      have hmn : m + 1 = n + 1 := natChars_injective h
      have : m = n := by omega
      rw [this]

theorem append_sep_inj {sep : Char} :
    ∀ (a₁ a₂ b₁ b₂ : List Char), sep ∉ a₁ → sep ∉ a₂ →
      a₁ ++ sep :: b₁ = a₂ ++ sep :: b₂ → a₁ = a₂ ∧ b₁ = b₂ := by
  intro a₁
  induction a₁ with
  | nil =>
    intro a₂ b₁ b₂ h1 h2 heq
    cases a₂ with
    | nil =>
      simp only [List.nil_append, List.cons.injEq, true_and] at heq
      exact ⟨rfl, heq⟩
    | cons d u =>
      simp only [List.nil_append, List.cons_append, List.cons.injEq] at heq
      exfalso
      apply h2
      rw [heq.1]
      exact List.mem_cons_self _ _
  | cons c t ih =>
    intro a₂ b₁ b₂ h1 h2 heq
    cases a₂ with
    | nil =>
      simp only [List.cons_append, List.nil_append, List.cons.injEq] at heq
      exfalso
      apply h1
      rw [← heq.1]
      exact List.mem_cons_self _ _
    | cons d u =>
      simp only [List.cons_append, List.cons.injEq] at heq
      obtain ⟨hcd, hrest⟩ := heq
      have h1' : sep ∉ t := fun hm => h1 (List.mem_cons_of_mem _ hm)
      have h2' : sep ∉ u := fun hm => h2 (List.mem_cons_of_mem _ hm)
      obtain ⟨ha, hb⟩ := ih u b₁ b₂ h1' h2' hrest
      exact ⟨by rw [hcd, ha], hb⟩

theorem ratChars_injective {p q : ℚ} (h : ratChars p = ratChars q) : p = q := by
  unfold ratChars at h
  have hp : '/' ∉ intChars p.num := by
    intro hm
    rcases intChars_mem hm with h1 | h1
    · exact absurd h1 (by decide)
    · exact absurd h1 (by decide)
  have hq : '/' ∉ intChars q.num := by
    intro hm
    rcases intChars_mem hm with h1 | h1
    · exact absurd h1 (by decide)
    · exact absurd h1 (by decide)
  obtain ⟨hnum, hden⟩ := append_sep_inj _ _ _ _ hp hq h
  exact Rat.ext (intChars_injective hnum) (natChars_injective hden)

theorem string_data_append (a b : String) : (a ++ b).data = a.data ++ b.data := rfl

theorem string_data_mk (l : List Char) : (String.mk l).data = l := rfl

theorem underscore_loss_data : "_loss_".data = '_' :: "loss_".data := by decide

theorem checkpoint_dir_data (log_dir : String) (epoch : Nat) (loss : ℚ) :
    (checkpoint_dir log_dir epoch loss).data =
      log_dir.data ++ ("/checkpoints/".data ++ ("epoch_".data ++
        (natChars epoch ++ ('_' :: ("loss_".data ++ ratChars loss))))) := by
  unfold checkpoint_dir
  simp only [string_data_append, string_data_mk, underscore_loss_data,
    List.append_assoc, List.cons_append]

theorem checkpoint_dir_inj_aux {log_dir : String} {e₁ e₂ : Nat} {l₁ l₂ : ℚ}
    (h : checkpoint_dir log_dir e₁ l₁ = checkpoint_dir log_dir e₂ l₂) :
    e₁ = e₂ ∧ l₁ = l₂ := by
  have hd : (checkpoint_dir log_dir e₁ l₁).data = (checkpoint_dir log_dir e₂ l₂).data := by
    rw [h]
  rw [checkpoint_dir_data, checkpoint_dir_data] at hd
  have hd1 := List.append_cancel_left hd
  have hd2 := List.append_cancel_left hd1
  have hd3 := List.append_cancel_left hd2
  obtain ⟨he, hrest⟩ := append_sep_inj _ _ _ _ (natChars_not_mem_underscore e₁)
    (natChars_not_mem_underscore e₂) hd3
  have hl := List.append_cancel_left hrest
  exact ⟨natChars_injective he, ratChars_injective hl⟩

end Trainer

namespace Trainer

/-- C6: the destination path is a deterministic function of the log
directory, epoch and loss that embeds the epoch and the loss
injectively: within one run (fixed log directory) any two accepted
checkpoints with different `(epoch, loss)` pairs get different paths. -/
theorem checkpoint_paths_distinct (log_dir : String) (e₁ e₂ : Nat) (l₁ l₂ : ℚ)
    (h : ¬(e₁ = e₂ ∧ l₁ = l₂)) :
    checkpoint_dir log_dir e₁ l₁ ≠ checkpoint_dir log_dir e₂ l₂ :=
  fun heq => h (checkpoint_dir_inj_aux heq)

/-- Witness for C6: the two checkpoints of the end-to-end scenario land
in different directories. -/
theorem checkpoint_paths_distinct_witness :
    checkpoint_dir "logs" 2 (mkRat 9 10) ≠ checkpoint_dir "logs" 3 (mkRat 1 2) :=
  checkpoint_paths_distinct "logs" 2 3 (mkRat 9 10) (mkRat 1 2) (by decide)

end Trainer
